import Mathlib

/-
Verification development for the OKAIgpt repository: a shallow embedding of
the relational store (chat sessions, chat messages, generated videos and the
four immutable result tables) and of the persistence handlers, together with
theorems settling the specification claims about them.

The database is modelled as lists of typed rows; each handler is translated
statement by statement from its TypeScript source. Timestamps are natural
numbers supplied explicitly where the source calls new Date or relies on a
defaultNow column default. A handler built from several SQL statements runs
each statement in its own implicit transaction (the source wraps none of them
in an explicit transaction), so a later statement that fails leaves the
effects of earlier statements committed; the touchFails flag of
createChatMessage models a store failure of its session-touch UPDATE.
-/

namespace OkaiGpt

/-- Message role enum, from message_role in db/schema. -/
inductive Role where
  | user
  | assistant
deriving DecidableEq

/-- Content type enum, from content_type in db/schema. -/
inductive ContentType where
  | text
  | image
  | pdf
deriving DecidableEq

/-- Video status enum, from video_status in db/schema. -/
inductive VideoStatus where
  | pending
  | processing
  | completed
  | failed
deriving DecidableEq

/-- Free-form JSON metadata of a chat message, modelled as key/value pairs. -/
abbrev Metadata : Type := List (String × String)

/-- Row of chat_sessions, from db/schema. -/
structure ChatSession where
  id : String
  title : Option String
  gen_z_mode : Bool
  copy_code_only_mode : Bool
  target_language : Option String
  created_at : Nat
  updated_at : Nat
deriving DecidableEq

/-- Row of chat_messages, from db/schema. -/
structure ChatMessage where
  id : Nat
  session_id : String
  role : Role
  content : String
  content_type : ContentType
  metadata : Option Metadata
  created_at : Nat
deriving DecidableEq

/-- Row of document_analysis, from db/schema. -/
structure DocumentAnalysis where
  id : Nat
  image_url : String
  prompt : String
  analysis_result : String
  created_at : Nat
deriving DecidableEq

/-- Row of generated_images, from db/schema. -/
structure GeneratedImage where
  id : Nat
  prompt : String
  image_url : String
  created_at : Nat
deriving DecidableEq

/-- Row of generated_videos, from db/schema. -/
structure GeneratedVideo where
  id : Nat
  prompt : String
  initial_image_url : Option String
  video_url : Option String
  status : VideoStatus
  progress_message : Option String
  created_at : Nat
  completed_at : Option Nat
deriving DecidableEq

/-- Row of quiz, from db/schema; the quiz_data JSON blob is kept opaque. -/
structure Quiz where
  id : Nat
  source_text : String
  quiz_data : String
  created_at : Nat
deriving DecidableEq

/-- Row of web_search, from db/schema. -/
structure WebSearch where
  id : Nat
  query : String
  summary : String
  sources : List String
  created_at : Nat
deriving DecidableEq

/-- The whole relational store: the seven tables of db/schema plus the
next values of the two serial id columns the embedded handlers allocate. -/
structure DB where
  chat_sessions : List ChatSession
  chat_messages : List ChatMessage
  document_analysis : List DocumentAnalysis
  generated_images : List GeneratedImage
  generated_videos : List GeneratedVideo
  quiz : List Quiz
  web_search : List WebSearch
  next_message_id : Nat
  next_video_id : Nat
deriving DecidableEq

/-- The empty store, with serial counters at 1 as in PostgreSQL. -/
def emptyDB : DB :=
  { chat_sessions := []
    chat_messages := []
    document_analysis := []
    generated_images := []
    generated_videos := []
    quiz := []
    web_search := []
    next_message_id := 1
    next_video_id := 1 }

/-- The foreign-key invariant declared in db/schema: every chat message
references an existing chat session. -/
def fkOk (db : DB) : Prop :=
  ∀ m ∈ db.chat_messages, ∃ s ∈ db.chat_sessions, s.id = m.session_id

instance (db : DB) : Decidable (fkOk db) :=
  inferInstanceAs (Decidable (∀ m ∈ db.chat_messages, ∃ s ∈ db.chat_sessions, s.id = m.session_id))

/-- Error taxonomy of the handlers, following section 7 of the spec: a
missing session on message append, a missing row on get/update, and a
generic underlying store failure. -/
inductive DbError where
  | sessionNotFound
  | notFound
  | storeFailure
deriving DecidableEq

/-- Ordering of chat messages by ascending created_at, the ORDER BY used by
getChatMessages. -/
def msgLe (a b : ChatMessage) : Prop := a.created_at ≤ b.created_at

instance : DecidableRel msgLe := fun a b => Nat.decLe a.created_at b.created_at

instance : IsTotal ChatMessage msgLe := ⟨fun a b => Nat.le_total a.created_at b.created_at⟩

instance : IsTrans ChatMessage msgLe := ⟨fun _ _ _ h₁ h₂ => Nat.le_trans h₁ h₂⟩

/-- Input of createChatMessage, from createChatMessageInputSchema. -/
structure CreateChatMessageInput where
  session_id : String
  role : Role
  content : String
  content_type : ContentType
  metadata : Option Metadata
deriving DecidableEq

/-- Handler createChatMessage from handlers/create_chat_message.ts. It first
checks that the session exists (SELECT, lines 9-16), then inserts the message
row (INSERT ... RETURNING, lines 19-28), then refreshes the updated_at of the
owning session (UPDATE, lines 33-36). The three statements are separate
autocommitted statements; touchFails = true models the UPDATE failing with an
underlying store error, in which case the handler rethrows but the already
committed INSERT remains. The pair returned is the handler outcome together
with the final store state. -/
def createChatMessage (db : DB) (input : CreateChatMessageInput) (now : Nat)
    (touchFails : Bool) : Except DbError ChatMessage × DB :=
  if (db.chat_sessions.filter (fun s => s.id == input.session_id)).length = 0 then
    (Except.error DbError.sessionNotFound, db)
  else
    let msg : ChatMessage :=
      { id := db.next_message_id
        session_id := input.session_id
        role := input.role
        content := input.content
        content_type := input.content_type
        metadata := input.metadata
        created_at := now }
    let db₁ : DB :=
      { db with
        chat_messages := db.chat_messages ++ [msg]
        next_message_id := db.next_message_id + 1 }
    if touchFails then
      (Except.error DbError.storeFailure, db₁)
    else
      (Except.ok msg,
        { db₁ with
          chat_sessions := db₁.chat_sessions.map fun s =>
            if s.id == input.session_id then { s with updated_at := now } else s })

/-- Input of getChatMessages, from getChatMessagesInputSchema. -/
structure GetChatMessagesInput where
  session_id : String
  limit : Option Nat
  offset : Option Nat
deriving DecidableEq

/-- Handler getChatMessages: selects the messages of the session, ordered by
created_at ascending, with LIMIT input.limit (default 1000) and OFFSET
input.offset (default 0); SQL applies the offset before the limit. -/
def getChatMessages (db : DB) (input : GetChatMessagesInput) : List ChatMessage :=
  let limit := input.limit.getD 1000
  let offset := input.offset.getD 0
  ((((db.chat_messages.filter (fun m => m.session_id == input.session_id)).insertionSort
      msgLe).drop offset).take limit)

/-- Handler deleteChatSession: deletes the session row; the removal of its
messages embeds the ON DELETE CASCADE declared on chat_messages.session_id in
db/schema. The source never fails on a nonexistent id. -/
def deleteChatSession (db : DB) (sessionId : String) : DB :=
  { db with
    chat_sessions := db.chat_sessions.filter fun s => !(s.id == sessionId)
    chat_messages := db.chat_messages.filter fun m => !(m.session_id == sessionId) }

/-- Input of updateChatSession, from updateChatSessionInputSchema. An outer
none means the field is absent from the request; for nullable columns the
inner option is the stored value. -/
structure UpdateChatSessionInput where
  id : String
  title : Option (Option String)
  gen_z_mode : Option Bool
  copy_code_only_mode : Option Bool
  target_language : Option (Option String)
deriving DecidableEq

/-- The update object built by updateChatSession: updated_at is always
refreshed and only the supplied fields change. -/
def applySessionUpdate (s : ChatSession) (i : UpdateChatSessionInput) (now : Nat) :
    ChatSession :=
  { s with
    updated_at := now
    title := i.title.getD s.title
    gen_z_mode := i.gen_z_mode.getD s.gen_z_mode
    copy_code_only_mode := i.copy_code_only_mode.getD s.copy_code_only_mode
    target_language := i.target_language.getD s.target_language }

/-- Handler updateChatSession: UPDATE ... WHERE id = input.id RETURNING; an
empty returned set means the session does not exist and the handler throws. -/
def updateChatSession (db : DB) (i : UpdateChatSessionInput) (now : Nat) :
    Except DbError (ChatSession × DB) :=
  let updated := db.chat_sessions.map fun s =>
    if s.id == i.id then applySessionUpdate s i now else s
  match updated.filter (fun s => s.id == i.id) with
  | [] => Except.error DbError.notFound
  | s :: _ => Except.ok (s, { db with chat_sessions := updated })

/-- Input of generateVideo, from createGeneratedVideoInputSchema. -/
structure CreateGeneratedVideoInput where
  prompt : String
  initial_image_url : Option String
deriving DecidableEq

/-- Modelled from the spec: the generateVideo handler. The file
handlers/generate_video.ts in the repository snapshot contains only the
placeholder declaration (its comment says real code should be implemented
here) and performs no insert, while the repository test suite requires the
returned record to be persisted; the persisting implementation is missing
from the snapshot. Following section 4.3 of the spec, the handler inserts a
new record with status pending, no video_url, no completed_at and the
human-readable default progress message used by the placeholder and asserted
by the tests, and returns the inserted row. -/
def generateVideo (db : DB) (input : CreateGeneratedVideoInput) (now : Nat) :
    GeneratedVideo × DB :=
  let v : GeneratedVideo :=
    { id := db.next_video_id
      prompt := input.prompt
      initial_image_url := input.initial_image_url
      video_url := none
      status := VideoStatus.pending
      progress_message := some "Video generation queued"
      created_at := now
      completed_at := none }
  (v, { db with
        generated_videos := db.generated_videos ++ [v]
        next_video_id := db.next_video_id + 1 })

/-- Input of getVideoStatus, from getVideoStatusInputSchema. -/
structure GetVideoStatusInput where
  id : Nat
deriving DecidableEq

/-- Handler getVideoStatus from handlers/get_video_status.ts: select by id,
throw when no row matches, otherwise return the first row. -/
def getVideoStatus (db : DB) (input : GetVideoStatusInput) :
    Except DbError GeneratedVideo :=
  match db.generated_videos.filter (fun v => v.id == input.id) with
  | [] => Except.error DbError.notFound
  | v :: _ => Except.ok v

/-- Input of updateVideoStatus, from updateGeneratedVideoInputSchema; outer
none means the field was not supplied. -/
structure UpdateGeneratedVideoInput where
  id : Nat
  video_url : Option (Option String)
  status : Option VideoStatus
  progress_message : Option (Option String)
  completed_at : Option (Option Nat)
deriving DecidableEq

/-- The update object built by updateVideoStatus: exactly the supplied
fields change. -/
def applyVideoUpdate (v : GeneratedVideo) (i : UpdateGeneratedVideoInput) :
    GeneratedVideo :=
  { v with
    video_url := i.video_url.getD v.video_url
    status := i.status.getD v.status
    progress_message := i.progress_message.getD v.progress_message
    completed_at := i.completed_at.getD v.completed_at }

/-- Handler updateVideoStatus: UPDATE ... WHERE id = input.id RETURNING; an
empty returned set means the video does not exist and the handler throws. -/
def updateVideoStatus (db : DB) (i : UpdateGeneratedVideoInput) :
    Except DbError (GeneratedVideo × DB) :=
  let updated := db.generated_videos.map fun v =>
    if v.id == i.id then applyVideoUpdate v i else v
  match updated.filter (fun v => v.id == i.id) with
  | [] => Except.error DbError.notFound
  | v :: _ => Except.ok (v, { db with generated_videos := updated })

/-- The recent-activities union type of handlers/get_recent_activities.ts. -/
inductive RecentActivity where
  | document_analysis (data : DocumentAnalysis)
  | generated_image (data : GeneratedImage)
  | generated_video (data : GeneratedVideo)
  | quiz (data : Quiz)
  | web_search (data : WebSearch)
deriving DecidableEq

/-- Creation timestamp of an activity, data.created_at in the source. -/
def RecentActivity.created_at : RecentActivity → Nat
  | RecentActivity.document_analysis d => d.created_at
  | RecentActivity.generated_image d => d.created_at
  | RecentActivity.generated_video d => d.created_at
  | RecentActivity.quiz d => d.created_at
  | RecentActivity.web_search d => d.created_at

/-- Ordering of activities by descending created_at, the comparator of the
final sort and of the per-table ORDER BY ... DESC in the source. -/
def actGe (a b : RecentActivity) : Prop := b.created_at ≤ a.created_at

instance : DecidableRel actGe := fun a b => Nat.decLe b.created_at a.created_at

instance : IsTotal RecentActivity actGe := ⟨fun a b => Nat.le_total b.created_at a.created_at⟩

instance : IsTrans RecentActivity actGe := ⟨fun _ _ _ h₁ h₂ => Nat.le_trans h₂ h₁⟩

/-- One bounded table read of getRecentActivities: ORDER BY created_at DESC
LIMIT limit. -/
def tableRead (l : List RecentActivity) (limit : Nat) : List RecentActivity :=
  (l.insertionSort actGe).take limit

/-- Handler getRecentActivities from handlers/get_recent_activities.ts:
fetch the newest limit rows of each of the five result tables, tag them,
concatenate, sort the union by created_at descending and apply the final
limit. -/
def getRecentActivities (db : DB) (limit : Nat) : List RecentActivity :=
  let documentAnalyses := tableRead (db.document_analysis.map RecentActivity.document_analysis) limit
  let generatedImages := tableRead (db.generated_images.map RecentActivity.generated_image) limit
  let generatedVideos := tableRead (db.generated_videos.map RecentActivity.generated_video) limit
  let quizzes := tableRead (db.quiz.map RecentActivity.quiz) limit
  let webSearches := tableRead (db.web_search.map RecentActivity.web_search) limit
  let allActivities := documentAnalyses ++ generatedImages ++ generatedVideos ++ quizzes ++ webSearches
  (allActivities.insertionSort actGe).take limit

/-- The full union of the five result tables, tagged as activities. -/
def allActivitiesOf (db : DB) : List RecentActivity :=
  db.document_analysis.map RecentActivity.document_analysis ++
    db.generated_images.map RecentActivity.generated_image ++
    db.generated_videos.map RecentActivity.generated_video ++
    db.quiz.map RecentActivity.quiz ++
    db.web_search.map RecentActivity.web_search

/-- C2: appending a message to a nonexistent session id fails with the
SessionNotFound error and leaves the store unchanged, so no message row is
persisted. -/
theorem createChatMessage_missing_session (db : DB) (input : CreateChatMessageInput)
    (now : Nat) (touchFails : Bool)
    (h : ∀ s ∈ db.chat_sessions, s.id ≠ input.session_id) :
    createChatMessage db input now touchFails
      = (Except.error DbError.sessionNotFound, db) := by
  have hf : db.chat_sessions.filter (fun s => s.id == input.session_id) = [] := by
    rw [List.filter_eq_nil_iff]
    intro s hs hbeq
    exact h s hs (by simpa using hbeq)
  simp [createChatMessage, hf]

/-- Witness for C2 at a concrete input: the empty store has no session named
ghost, and appending to it returns the SessionNotFound error with the store
untouched. -/
theorem createChatMessage_missing_session_witness :
    (∀ s ∈ emptyDB.chat_sessions, s.id ≠ "ghost") ∧
    createChatMessage emptyDB ⟨"ghost", Role.user, "hello", ContentType.text, none⟩ 3 false
      = (Except.error DbError.sessionNotFound, emptyDB) :=
  ⟨by decide,
    createChatMessage_missing_session emptyDB
      ⟨"ghost", Role.user, "hello", ContentType.text, none⟩ 3 false (by decide)⟩

/-- C3: generateVideo always appends exactly one new persisted video record
to the store and returns that record, with status pending, no video_url, no
completed_at, and the human-readable default progress message. -/
theorem generateVideo_pending_initial_record (db : DB)
    (input : CreateGeneratedVideoInput) (now : Nat) :
    (generateVideo db input now).1.status = VideoStatus.pending ∧
    (generateVideo db input now).1.video_url = none ∧
    (generateVideo db input now).1.completed_at = none ∧
    (generateVideo db input now).1.progress_message = some "Video generation queued" ∧
    (generateVideo db input now).2.generated_videos
      = db.generated_videos ++ [(generateVideo db input now).1] ∧
    (generateVideo db input now).1.prompt = input.prompt ∧
    (generateVideo db input now).1.initial_image_url = input.initial_image_url :=
  ⟨rfl, rfl, rfl, rfl, rfl, rfl, rfl⟩

/-- C4: a getChatMessages call with limit 0 returns the empty collection
without failing, and a call whose offset is at least the number of messages
of the session returns the empty collection. -/
theorem getChatMessages_zero_limit_offset_beyond (db : DB) (s : String)
    (off lim : Option Nat) (k : Nat) :
    getChatMessages db ⟨s, some 0, off⟩ = [] ∧
    ((db.chat_messages.filter (fun m => m.session_id == s)).length ≤ k →
      getChatMessages db ⟨s, lim, some k⟩ = []) := by
  constructor
  · simp [getChatMessages]
  · intro h
    have hd : (((db.chat_messages.filter
        (fun m => m.session_id == s)).insertionSort msgLe)).drop k = [] := by
      apply List.drop_eq_nil_of_le
      rw [List.length_insertionSort]
      exact h
    simp [getChatMessages, hd]

/-- Witness for C4 at a concrete input: a store with one session holding one
message, queried with limit 0 and with offset 1. -/
theorem getChatMessages_zero_limit_offset_beyond_witness :
    (({ emptyDB with
        chat_sessions := [⟨"s1", none, false, false, none, 0, 0⟩]
        chat_messages := [⟨1, "s1", Role.user, "hi", ContentType.text, none, 1⟩] } : DB).chat_messages.filter
          (fun m => m.session_id == "s1")).length ≤ 1 ∧
    getChatMessages
        { emptyDB with
          chat_sessions := [⟨"s1", none, false, false, none, 0, 0⟩]
          chat_messages := [⟨1, "s1", Role.user, "hi", ContentType.text, none, 1⟩] }
        ⟨"s1", some 0, none⟩ = [] ∧
    getChatMessages
        { emptyDB with
          chat_sessions := [⟨"s1", none, false, false, none, 0, 0⟩]
          chat_messages := [⟨1, "s1", Role.user, "hi", ContentType.text, none, 1⟩] }
        ⟨"s1", none, some 1⟩ = [] :=
  ⟨by decide,
    (getChatMessages_zero_limit_offset_beyond
      { emptyDB with
        chat_sessions := [⟨"s1", none, false, false, none, 0, 0⟩]
        chat_messages := [⟨1, "s1", Role.user, "hi", ContentType.text, none, 1⟩] }
      "s1" none none 1).1,
    (getChatMessages_zero_limit_offset_beyond
      { emptyDB with
        chat_sessions := [⟨"s1", none, false, false, none, 0, 0⟩]
        chat_messages := [⟨1, "s1", Role.user, "hi", ContentType.text, none, 1⟩] }
      "s1" none none 1).2 (by decide)⟩

/-- C10: without an explicit limit, getChatMessages substitutes a default
limit of 1000, so it returns at most 1000 messages; for a session holding
more than 1000 messages, an unlimited query returns strictly fewer messages
than the session holds. -/
theorem getChatMessages_default_limit_cap (db : DB) (s : String) (off : Option Nat) :
    (getChatMessages db ⟨s, none, off⟩).length ≤ 1000 ∧
    (1000 < (db.chat_messages.filter (fun m => m.session_id == s)).length →
      (getChatMessages db ⟨s, none, none⟩).length
        < (db.chat_messages.filter (fun m => m.session_id == s)).length) := by
  constructor
  · simp only [getChatMessages]
    exact List.length_take_le 1000 _
  · intro h
    simp only [getChatMessages, Option.getD_none, List.drop_zero]
    rw [List.length_take, List.length_insertionSort]
    omega

/-- Witness for C10 at a concrete input: a session holding 1001 identical
messages, for which the unlimited query returns fewer than 1001 messages. -/
theorem getChatMessages_default_limit_cap_witness :
    1000 < (({ emptyDB with
        chat_sessions := [⟨"s1", none, false, false, none, 0, 0⟩]
        chat_messages :=
          List.replicate 1001 ⟨1, "s1", Role.user, "hi", ContentType.text, none, 1⟩ } : DB).chat_messages.filter
          (fun m => m.session_id == "s1")).length ∧
    (getChatMessages
        { emptyDB with
          chat_sessions := [⟨"s1", none, false, false, none, 0, 0⟩]
          chat_messages :=
            List.replicate 1001 ⟨1, "s1", Role.user, "hi", ContentType.text, none, 1⟩ }
        ⟨"s1", none, none⟩).length
      < (({ emptyDB with
          chat_sessions := [⟨"s1", none, false, false, none, 0, 0⟩]
          chat_messages :=
            List.replicate 1001 ⟨1, "s1", Role.user, "hi", ContentType.text, none, 1⟩ } : DB).chat_messages.filter
            (fun m => m.session_id == "s1")).length := by
  have hflt : (({ emptyDB with
      chat_sessions := [⟨"s1", none, false, false, none, 0, 0⟩]
      chat_messages :=
        List.replicate 1001 ⟨1, "s1", Role.user, "hi", ContentType.text, none, 1⟩ } : DB).chat_messages.filter
        (fun m => m.session_id == "s1")).length = 1001 := by
    rw [List.filter_eq_self.mpr]
    · exact List.length_replicate 1001 _
    · intro m hm
      rw [List.eq_of_mem_replicate hm]
      rfl
  have h : 1000 < (({ emptyDB with
      chat_sessions := [⟨"s1", none, false, false, none, 0, 0⟩]
      chat_messages :=
        List.replicate 1001 ⟨1, "s1", Role.user, "hi", ContentType.text, none, 1⟩ } : DB).chat_messages.filter
        (fun m => m.session_id == "s1")).length := by
    rw [hflt]
    omega
  exact ⟨h,
    (getChatMessages_default_limit_cap
      { emptyDB with
        chat_sessions := [⟨"s1", none, false, false, none, 0, 0⟩]
        chat_messages :=
          List.replicate 1001 ⟨1, "s1", Role.user, "hi", ContentType.text, none, 1⟩ }
      "s1" none).2 h⟩

/-- C5: getChatMessages returns only messages of the queried session, in
non-decreasing created_at order, and under the foreign-key invariant a query
for a session id that does not exist returns the empty collection. -/
theorem getChatMessages_scoped_and_sorted (db : DB) (input : GetChatMessagesInput) :
    (∀ m ∈ getChatMessages db input, m.session_id = input.session_id) ∧
    List.Sorted msgLe (getChatMessages db input) ∧
    (fkOk db → (∀ s ∈ db.chat_sessions, s.id ≠ input.session_id) →
      getChatMessages db input = []) := by
  refine ⟨?_, ?_, ?_⟩
  · intro m hm
    simp only [getChatMessages] at hm
    have h1 : m ∈ ((db.chat_messages.filter
        (fun x => x.session_id == input.session_id)).insertionSort msgLe) :=
      (List.drop_sublist _ _).subset ((List.take_sublist _ _).subset hm)
    have h2 : m ∈ db.chat_messages.filter (fun x => x.session_id == input.session_id) :=
      (List.mem_insertionSort msgLe).mp h1
    simpa using (List.mem_filter.mp h2).2
  · have hsorted : List.Sorted msgLe ((db.chat_messages.filter
        (fun x => x.session_id == input.session_id)).insertionSort msgLe) :=
      List.sorted_insertionSort msgLe _
    have hsub : List.Sublist (getChatMessages db input) ((db.chat_messages.filter
        (fun x => x.session_id == input.session_id)).insertionSort msgLe) :=
      (List.take_sublist _ _).trans (List.drop_sublist _ _)
    exact List.Pairwise.sublist hsub hsorted
  · intro hfk hs
    have hf : db.chat_messages.filter (fun m => m.session_id == input.session_id) = [] := by
      rw [List.filter_eq_nil_iff]
      intro m hm hbeq
      obtain ⟨s, hsm, hsid⟩ := hfk m hm
      exact hs s hsm (hsid.trans (by simpa using hbeq))
    simp [getChatMessages, hf]

/-- Witness for C5 at a concrete input: a store with one session and one
message, queried for a session id that does not exist. -/
theorem getChatMessages_scoped_and_sorted_witness :
    fkOk { emptyDB with
      chat_sessions := [⟨"s1", none, false, false, none, 0, 0⟩]
      chat_messages := [⟨1, "s1", Role.user, "hi", ContentType.text, none, 1⟩] } ∧
    (∀ s ∈ ({ emptyDB with
        chat_sessions := [⟨"s1", none, false, false, none, 0, 0⟩]
        chat_messages := [⟨1, "s1", Role.user, "hi", ContentType.text, none, 1⟩] } : DB).chat_sessions,
      s.id ≠ "nope") ∧
    getChatMessages
        { emptyDB with
          chat_sessions := [⟨"s1", none, false, false, none, 0, 0⟩]
          chat_messages := [⟨1, "s1", Role.user, "hi", ContentType.text, none, 1⟩] }
        ⟨"nope", none, none⟩ = [] :=
  ⟨by decide, by decide,
    (getChatMessages_scoped_and_sorted
      { emptyDB with
        chat_sessions := [⟨"s1", none, false, false, none, 0, 0⟩]
        chat_messages := [⟨1, "s1", Role.user, "hi", ContentType.text, none, 1⟩] }
      ⟨"nope", none, none⟩).2.2 (by decide) (by decide)⟩

/-- C6: deleteChatSession removes the targeted session and, through the
declared cascade, every message owned by it; all other sessions and messages
survive; and, under the foreign-key invariant, deleting a nonexistent id
leaves the store exactly as it was (the handler never fails). -/
theorem deleteChatSession_cascades_and_idempotent (db : DB) (sid : String) :
    (∀ m ∈ (deleteChatSession db sid).chat_messages, m.session_id ≠ sid) ∧
    (∀ s ∈ (deleteChatSession db sid).chat_sessions, s.id ≠ sid) ∧
    (∀ m ∈ db.chat_messages, m.session_id ≠ sid → m ∈ (deleteChatSession db sid).chat_messages) ∧
    (∀ s ∈ db.chat_sessions, s.id ≠ sid → s ∈ (deleteChatSession db sid).chat_sessions) ∧
    (deleteChatSession db sid).generated_videos = db.generated_videos ∧
    ((∀ s ∈ db.chat_sessions, s.id ≠ sid) → fkOk db → deleteChatSession db sid = db) := by
  refine ⟨?_, ?_, ?_, ?_, rfl, ?_⟩
  · intro m hm
    have := (List.mem_filter.mp hm).2
    simpa using this
  · intro s hs
    have := (List.mem_filter.mp hs).2
    simpa using this
  · intro m hm hne
    exact List.mem_filter.mpr ⟨hm, by simpa using hne⟩
  · intro s hs hne
    exact List.mem_filter.mpr ⟨hs, by simpa using hne⟩
  · intro hs hfk
    have h₁ : db.chat_sessions.filter (fun s => !(s.id == sid)) = db.chat_sessions :=
      List.filter_eq_self.mpr fun s hsm => by simpa using hs s hsm
    have h₂ : db.chat_messages.filter (fun m => !(m.session_id == sid)) = db.chat_messages := by
      apply List.filter_eq_self.mpr
      intro m hm
      obtain ⟨s, hsm, hsid⟩ := hfk m hm
      have hne : m.session_id ≠ sid := fun hEq => hs s hsm (by rw [hsid, hEq])
      simpa using hne
    obtain ⟨cs, cm, da, gi, gv, qz, ws, nm, nv⟩ := db
    simp only [deleteChatSession] at h₁ h₂ ⊢
    rw [h₁, h₂]

/-- Witness for C6 at a concrete input: a store with one session and one
message, from which the nonexistent session ghost is deleted. -/
theorem deleteChatSession_cascades_and_idempotent_witness :
    (∀ s ∈ ({ emptyDB with
        chat_sessions := [⟨"s1", none, false, false, none, 0, 0⟩]
        chat_messages := [⟨1, "s1", Role.user, "hi", ContentType.text, none, 1⟩] } : DB).chat_sessions,
      s.id ≠ "ghost") ∧
    fkOk { emptyDB with
      chat_sessions := [⟨"s1", none, false, false, none, 0, 0⟩]
      chat_messages := [⟨1, "s1", Role.user, "hi", ContentType.text, none, 1⟩] } ∧
    deleteChatSession
        { emptyDB with
          chat_sessions := [⟨"s1", none, false, false, none, 0, 0⟩]
          chat_messages := [⟨1, "s1", Role.user, "hi", ContentType.text, none, 1⟩] }
        "ghost"
      = { emptyDB with
          chat_sessions := [⟨"s1", none, false, false, none, 0, 0⟩]
          chat_messages := [⟨1, "s1", Role.user, "hi", ContentType.text, none, 1⟩] } :=
  ⟨by decide, by decide,
    (deleteChatSession_cascades_and_idempotent
      { emptyDB with
        chat_sessions := [⟨"s1", none, false, false, none, 0, 0⟩]
        chat_messages := [⟨1, "s1", Role.user, "hi", ContentType.text, none, 1⟩] }
      "ghost").2.2.2.2.2 (by decide) (by decide)⟩

/-- Filtering by id commutes with the per-row update map of
updateVideoStatus, because the update never changes the id column. -/
theorem filter_id_map_update (l : List GeneratedVideo) (i : UpdateGeneratedVideoInput) :
    (l.map (fun w => if w.id == i.id then applyVideoUpdate w i else w)).filter
        (fun w => w.id == i.id)
      = (l.filter (fun w => w.id == i.id)).map
          (fun w => if w.id == i.id then applyVideoUpdate w i else w) := by
  rw [List.filter_map]
  congr 1
  apply List.filter_congr
  intro w _
  by_cases h : (w.id == i.id) = true
  · simp [Function.comp, h, applyVideoUpdate]
  · simp [Function.comp, h]

/-- Filtering by id commutes with the per-row update map of
updateChatSession, because the update never changes the id column. -/
theorem filter_id_map_session_update (l : List ChatSession) (j : UpdateChatSessionInput)
    (now : Nat) :
    (l.map (fun s => if s.id == j.id then applySessionUpdate s j now else s)).filter
        (fun s => s.id == j.id)
      = (l.filter (fun s => s.id == j.id)).map
          (fun s => if s.id == j.id then applySessionUpdate s j now else s) := by
  rw [List.filter_map]
  congr 1
  apply List.filter_congr
  intro s _
  by_cases h : (s.id == j.id) = true
  · simp [Function.comp, h, applySessionUpdate]
  · simp [Function.comp, h]

/-- C7: for an existing video id, updateVideoStatus followed by
getVideoStatus reflects exactly the supplied fields, while every field not
supplied in the update retains its prior value. -/
theorem updateVideoStatus_then_getVideoStatus (db : DB) (i : UpdateGeneratedVideoInput)
    (v : GeneratedVideo)
    (hv : db.generated_videos.filter (fun w => w.id == i.id) = [v]) :
    ∃ db2, updateVideoStatus db i = Except.ok (applyVideoUpdate v i, db2) ∧
      getVideoStatus db2 ⟨i.id⟩ = Except.ok (applyVideoUpdate v i) ∧
      (∀ st, i.status = some st → (applyVideoUpdate v i).status = st) ∧
      (∀ u, i.video_url = some u → (applyVideoUpdate v i).video_url = u) ∧
      (∀ pm, i.progress_message = some pm → (applyVideoUpdate v i).progress_message = pm) ∧
      (∀ c, i.completed_at = some c → (applyVideoUpdate v i).completed_at = c) ∧
      (i.status = none → (applyVideoUpdate v i).status = v.status) ∧
      (i.video_url = none → (applyVideoUpdate v i).video_url = v.video_url) ∧
      (i.progress_message = none → (applyVideoUpdate v i).progress_message = v.progress_message) ∧
      (i.completed_at = none → (applyVideoUpdate v i).completed_at = v.completed_at) ∧
      (applyVideoUpdate v i).prompt = v.prompt ∧
      (applyVideoUpdate v i).initial_image_url = v.initial_image_url ∧
      (applyVideoUpdate v i).created_at = v.created_at := by
  have hvmem : v ∈ db.generated_videos.filter (fun w => w.id == i.id) := by
    rw [hv]; exact List.mem_singleton_self v
  have hpv : (v.id == i.id) = true := (List.mem_filter.mp hvmem).2
  have hfil : (db.generated_videos.map
      (fun w => if w.id == i.id then applyVideoUpdate w i else w)).filter
        (fun w => w.id == i.id) = [applyVideoUpdate v i] := by
    rw [filter_id_map_update, hv]
    simp only [List.map_cons, List.map_nil]
    rw [if_pos hpv]
  refine ⟨{ db with generated_videos := (db.generated_videos.map (fun w => if w.id == i.id then applyVideoUpdate w i else w)) }, ?_, ?_,
    fun st hst => by simp [applyVideoUpdate, hst],
    fun u hu => by simp [applyVideoUpdate, hu],
    fun pm hpm => by simp [applyVideoUpdate, hpm],
    fun c hc => by simp [applyVideoUpdate, hc],
    fun h => by simp [applyVideoUpdate, h],
    fun h => by simp [applyVideoUpdate, h],
    fun h => by simp [applyVideoUpdate, h],
    fun h => by simp [applyVideoUpdate, h],
    rfl, rfl, rfl⟩
  · simp only [updateVideoStatus]
    rw [hfil]
  · simp only [getVideoStatus]
    rw [hfil]

/-- Witness for C7 at a concrete input: a store with one pending video of id
1, updated to completed with video_url x, then read back. -/
theorem updateVideoStatus_then_getVideoStatus_witness :
    ({ emptyDB with
      generated_videos := [⟨1, "cat", none, none, VideoStatus.pending,
        some "Video generation queued", 0, none⟩] } : DB).generated_videos.filter
        (fun w => w.id == (1 : Nat)) = [⟨1, "cat", none, none, VideoStatus.pending,
          some "Video generation queued", 0, none⟩] ∧
    ∃ db2,
      updateVideoStatus
          { emptyDB with
            generated_videos := [⟨1, "cat", none, none, VideoStatus.pending,
              some "Video generation queued", 0, none⟩] }
          ⟨1, some (some "x"), some VideoStatus.completed, none, none⟩
        = Except.ok (applyVideoUpdate
            ⟨1, "cat", none, none, VideoStatus.pending,
              some "Video generation queued", 0, none⟩
            ⟨1, some (some "x"), some VideoStatus.completed, none, none⟩, db2) ∧
      getVideoStatus db2 ⟨1⟩
        = Except.ok (applyVideoUpdate
            ⟨1, "cat", none, none, VideoStatus.pending,
              some "Video generation queued", 0, none⟩
            ⟨1, some (some "x"), some VideoStatus.completed, none, none⟩) :=
  ⟨by decide, by
    obtain ⟨db2, h1, h2, _⟩ := updateVideoStatus_then_getVideoStatus
      { emptyDB with
        generated_videos := [⟨1, "cat", none, none, VideoStatus.pending,
          some "Video generation queued", 0, none⟩] }
      ⟨1, some (some "x"), some VideoStatus.completed, none, none⟩
      ⟨1, "cat", none, none, VideoStatus.pending,
        some "Video generation queued", 0, none⟩
      (by decide)
    exact ⟨db2, h1, h2⟩⟩

/-- C8: getVideoStatus, updateVideoStatus and updateChatSession each fail
with the NotFound error when the targeted id names no existing record. -/
theorem nonexistent_id_fails_notFound (db : DB) (gv : GetVideoStatusInput)
    (i : UpdateGeneratedVideoInput) (j : UpdateChatSessionInput) (now : Nat)
    (hvid : ∀ v ∈ db.generated_videos, v.id ≠ gv.id)
    (hieq : i.id = gv.id)
    (hsid : ∀ s ∈ db.chat_sessions, s.id ≠ j.id) :
    getVideoStatus db gv = Except.error DbError.notFound ∧
    updateVideoStatus db i = Except.error DbError.notFound ∧
    updateChatSession db j now = Except.error DbError.notFound := by
  refine ⟨?_, ?_, ?_⟩
  · have hf : db.generated_videos.filter (fun v => v.id == gv.id) = [] := by
      rw [List.filter_eq_nil_iff]
      intro v hvm hbeq
      exact hvid v hvm (by simpa using hbeq)
    simp [getVideoStatus, hf]
  · have hf0 : db.generated_videos.filter (fun w => w.id == i.id) = [] := by
      rw [List.filter_eq_nil_iff]
      intro v hvm hbeq
      exact hvid v hvm (by rw [← hieq]; simpa using hbeq)
    have hf : (db.generated_videos.map
        (fun w => if w.id == i.id then applyVideoUpdate w i else w)).filter
          (fun w => w.id == i.id) = [] := by
      rw [filter_id_map_update, hf0]
      rfl
    simp only [updateVideoStatus]
    rw [hf]
  · have hf0 : db.chat_sessions.filter (fun s => s.id == j.id) = [] := by
      rw [List.filter_eq_nil_iff]
      intro s hsm hbeq
      exact hsid s hsm (by simpa using hbeq)
    have hf : (db.chat_sessions.map
        (fun s => if s.id == j.id then applySessionUpdate s j now else s)).filter
          (fun s => s.id == j.id) = [] := by
      rw [filter_id_map_session_update, hf0]
      rfl
    simp only [updateChatSession]
    rw [hf]

/-- Witness for C8 at a concrete input: a store with one video of id 1 and
one session s1, targeted with video id 2 and session id nope. -/
theorem nonexistent_id_fails_notFound_witness :
    (∀ v ∈ ({ emptyDB with
        chat_sessions := [⟨"s1", none, false, false, none, 0, 0⟩]
        generated_videos := [⟨1, "cat", none, none, VideoStatus.pending,
          some "Video generation queued", 0, none⟩] } : DB).generated_videos,
      v.id ≠ (2 : Nat)) ∧
    getVideoStatus
        { emptyDB with
          chat_sessions := [⟨"s1", none, false, false, none, 0, 0⟩]
          generated_videos := [⟨1, "cat", none, none, VideoStatus.pending,
            some "Video generation queued", 0, none⟩] }
        ⟨2⟩ = Except.error DbError.notFound ∧
    updateVideoStatus
        { emptyDB with
          chat_sessions := [⟨"s1", none, false, false, none, 0, 0⟩]
          generated_videos := [⟨1, "cat", none, none, VideoStatus.pending,
            some "Video generation queued", 0, none⟩] }
        ⟨2, none, some VideoStatus.completed, none, none⟩ = Except.error DbError.notFound ∧
    updateChatSession
        { emptyDB with
          chat_sessions := [⟨"s1", none, false, false, none, 0, 0⟩]
          generated_videos := [⟨1, "cat", none, none, VideoStatus.pending,
            some "Video generation queued", 0, none⟩] }
        ⟨"nope", some (some "t"), none, none, none⟩ 7 = Except.error DbError.notFound := by
  have h := nonexistent_id_fails_notFound
    { emptyDB with
      chat_sessions := [⟨"s1", none, false, false, none, 0, 0⟩]
      generated_videos := [⟨1, "cat", none, none, VideoStatus.pending,
        some "Video generation queued", 0, none⟩] }
    ⟨2⟩ ⟨2, none, some VideoStatus.completed, none, none⟩
    ⟨"nope", some (some "t"), none, none, none⟩ 7
    (by decide) (by decide) (by decide)
  exact ⟨by decide, h.1, h.2.1, h.2.2⟩

/-- C1, failing case: in a store holding session s1, when the session-touch
UPDATE of createChatMessage fails with a store error, the handler as written
fails as a whole, but the message row inserted by the preceding autocommitted
INSERT statement remains persisted and the session keeps its stale
updated_at, because the source wraps the two statements in no transaction. -/
theorem createChatMessage_touch_failure_persists_message :
    (createChatMessage
        { emptyDB with chat_sessions := [⟨"s1", none, false, false, none, 0, 0⟩] }
        ⟨"s1", Role.user, "hello", ContentType.text, none⟩ 5 true).1
      = Except.error DbError.storeFailure ∧
    (createChatMessage
        { emptyDB with chat_sessions := [⟨"s1", none, false, false, none, 0, 0⟩] }
        ⟨"s1", Role.user, "hello", ContentType.text, none⟩ 5 true).2.chat_messages
      = [⟨1, "s1", Role.user, "hello", ContentType.text, none, 5⟩] ∧
    (createChatMessage
        { emptyDB with chat_sessions := [⟨"s1", none, false, false, none, 0, 0⟩] }
        ⟨"s1", Role.user, "hello", ContentType.text, none⟩ 5 true).2.chat_sessions
      = [⟨"s1", none, false, false, none, 0, 0⟩] :=
  ⟨rfl, rfl, rfl⟩

section MergeTop

variable {α : Type} (r : α → α → Prop) [DecidableRel r]

/-- Top k elements of one source under the order r: the shape of one
ORDER BY ... LIMIT k table read. -/
def topK (k : Nat) (l : List α) : List α := (l.insertionSort r).take k

/-- Bounded reads of several sources, merged, re-sorted under r and cut to
k: the shape of getRecentActivities over its five tables. -/
def mergeReads (k : Nat) (ls : List (List α)) : List α :=
  (((ls.map (topK r k)).flatten).insertionSort r).take k

omit [DecidableRel r] in
/-- In a sorted list holding at least k elements satisfying an upward-closed
predicate, every element of the first k satisfies the predicate. -/
theorem sorted_take_of_le_countP (p : α → Bool)
    (hp : ∀ a b, r a b → p b = true → p a = true) :
    ∀ L : List α, L.Sorted r → ∀ k, k ≤ L.countP p → ∀ x ∈ L.take k, p x = true := by
  intro L
  induction L with
  | nil =>
    intro _ k _ x hx
    simp at hx
  | cons a L ih =>
    intro hs k hk x hx
    cases k with
    | zero => simp at hx
    | succ k2 =>
      rw [List.take_succ_cons] at hx
      have hpa : p a = true := by
        by_cases h : p a = true
        · exact h
        · have hfalse : p a = false := by
            revert h
            cases p a <;> simp
          have hcnt : 0 < L.countP p := by
            rw [List.countP_cons] at hk
            simp [hfalse] at hk
            omega
          obtain ⟨b, hb, hpb⟩ := List.countP_pos_iff.mp hcnt
          exact absurd (hp a b (List.rel_of_sorted_cons hs b hb) hpb) h
      rcases List.mem_cons.mp hx with rfl | hx2
      · exact hpa
      · have hk2 : k2 ≤ L.countP p := by
          rw [List.countP_cons] at hk
          simp [hpa] at hk
          omega
        exact ih (List.Sorted.of_cons hs) k2 hk2 x hx2

/-- A list is, as a multiset, its top k plus the rest of its sorted copy. -/
theorem coe_eq_topK_add_rest (k : Nat) (l : List α) :
    (l : Multiset α) = (topK r k l : Multiset α) + ((l.insertionSort r).drop k : Multiset α) := by
  calc (l : Multiset α)
      = ((l.insertionSort r : List α) : Multiset α) :=
        (Multiset.coe_eq_coe.mpr (List.perm_insertionSort r l)).symm
    _ = (((l.insertionSort r).take k ++ (l.insertionSort r).drop k : List α) : Multiset α) := by
        rw [List.take_append_drop]
    _ = (topK r k l : Multiset α) + ((l.insertionSort r).drop k : Multiset α) :=
        (Multiset.coe_add _ _).symm

/-- The union of several sources splits, as a multiset, into the merged
truncated reads plus the per-source dropped remainders. -/
theorem coe_flatten_split (k : Nat) :
    ∀ ls : List (List α),
      (ls.flatten : Multiset α)
        = ((ls.map (topK r k)).flatten : Multiset α)
          + ((ls.map (fun l => (l.insertionSort r).drop k)).flatten : Multiset α) := by
  intro ls
  induction ls with
  | nil => rfl
  | cons l ls ih =>
    simp only [List.map_cons, List.flatten_cons]
    rw [← Multiset.coe_add, ← Multiset.coe_add, ← Multiset.coe_add]
    rw [coe_eq_topK_add_rest r k l, ih]
    rw [add_add_add_comm]

/-- Cutting at k absorbs the per-source truncation of the lengths. -/
theorem min_length_topK_flatten (k : Nat) :
    ∀ ls : List (List α),
      min k ((ls.map (topK r k)).flatten).length = min k ls.flatten.length := by
  intro ls
  induction ls with
  | nil => rfl
  | cons l ls ih =>
    simp only [List.map_cons, List.flatten_cons, List.length_append]
    have h1 : (topK r k l).length = min k l.length := by
      simp [topK, List.length_take, List.length_insertionSort]
    omega

/-- The merged bounded reads, re-sorted and cut to k, are exactly the k
globally greatest elements of the union up to ties: the result has length
min k of the union size, is sorted under r, is drawn from the union, and
every union element left out is below every element returned. -/
theorem mergeReads_spec [DecidableEq α] [IsTotal α r] [IsTrans α r] (k : Nat) (ls : List (List α)) :
    (mergeReads r k ls).length = min k ls.flatten.length ∧
    List.Sorted r (mergeReads r k ls) ∧
    List.Subperm (mergeReads r k ls) ls.flatten ∧
    (∀ x ∈ mergeReads r k ls,
      ∀ y ∈ ((ls.flatten : Multiset α) - (mergeReads r k ls : Multiset α)), r x y) := by
  unfold mergeReads
  set merged := (ls.map (topK r k)).flatten with hmg
  set M := merged.insertionSort r with hM
  have hsorted : M.Sorted r := List.sorted_insertionSort r merged
  have hMperm : List.Perm M merged := List.perm_insertionSort r merged
  have hcoeM : (M : Multiset α) = (merged : Multiset α) := Multiset.coe_eq_coe.mpr hMperm
  have hsplitM : (merged : Multiset α)
      = ((M.take k : List α) : Multiset α) + ((M.drop k : List α) : Multiset α) := by
    rw [← hcoeM]
    conv_lhs => rw [← List.take_append_drop k M]
    exact (Multiset.coe_add _ _).symm
  have hUres : (ls.flatten : Multiset α)
      = ((M.take k : List α) : Multiset α)
        + (((M.drop k : List α) : Multiset α)
          + ((ls.map (fun l => (l.insertionSort r).drop k)).flatten : Multiset α)) := by
    rw [coe_flatten_split r k ls, hsplitM, add_assoc]
  refine ⟨?_, ?_, ?_, ?_⟩
  · rw [List.length_take, List.length_insertionSort]
    exact min_length_topK_flatten r k ls
  · exact List.Pairwise.sublist (List.take_sublist k M) hsorted
  · apply Multiset.coe_le.mp
    rw [hUres]
    exact Multiset.le_iff_exists_add.mpr ⟨_, rfl⟩
  · intro x hx y hy
    have hsub : (ls.flatten : Multiset α) - ((M.take k : List α) : Multiset α)
        = ((M.drop k : List α) : Multiset α)
          + ((ls.map (fun l => (l.insertionSort r).drop k)).flatten : Multiset α) := by
      rw [hUres]
      exact add_tsub_cancel_left _ _
    rw [hsub] at hy
    rcases Multiset.mem_add.mp hy with hy1 | hy2
    · exact List.Sorted.rel_of_mem_take_of_mem_drop hsorted hx (Multiset.mem_coe.mp hy1)
    · have hyl := Multiset.mem_coe.mp hy2
      obtain ⟨dl, hdl, hydl⟩ := List.mem_flatten.mp hyl
      obtain ⟨l, hl, rfl⟩ := List.mem_map.mp hdl
      have hsl : (l.insertionSort r).Sorted r := List.sorted_insertionSort r l
      have htr : ∀ z ∈ topK r k l, r z y := fun z hz =>
        List.Sorted.rel_of_mem_take_of_mem_drop hsl hz hydl
      have hlen : (topK r k l).length = k := by
        have hk2 : k < (l.insertionSort r).length := by
          by_contra hcon
          push_neg at hcon
          rw [List.drop_eq_nil_of_le hcon] at hydl
          simp at hydl
        simp only [topK, List.length_take]
        omega
      have hcnt : k ≤ merged.countP fun a => decide (r a y) := by
        have h1 : (topK r k l).countP (fun a => decide (r a y)) = (topK r k l).length :=
          List.countP_eq_length.mpr fun z hz => decide_eq_true (htr z hz)
        have h2 : topK r k l ∈ ls.map (topK r k) := List.mem_map_of_mem _ hl
        have h3 : List.Sublist (topK r k l) merged := List.sublist_flatten_of_mem h2
        calc k = (topK r k l).countP fun a => decide (r a y) := by rw [h1, hlen]
          _ ≤ merged.countP fun a => decide (r a y) := List.Sublist.countP_le _ h3
      have hcntM : k ≤ M.countP fun a => decide (r a y) := by
        rw [List.Perm.countP_eq _ hMperm]
        exact hcnt
      have hpx := sorted_take_of_le_countP r (fun a => decide (r a y))
        (fun a b hab hpb => decide_eq_true (IsTrans.trans a b y hab (of_decide_eq_true hpb)))
        M hsorted k hcntM x hx
      exact of_decide_eq_true hpx

end MergeTop

/-- getRecentActivities is the generic bounded-read merge over the five
tagged tables. -/
theorem getRecentActivities_eq_mergeReads (db : DB) (k : Nat) :
    getRecentActivities db k = mergeReads actGe k
      [db.document_analysis.map RecentActivity.document_analysis,
        db.generated_images.map RecentActivity.generated_image,
        db.generated_videos.map RecentActivity.generated_video,
        db.quiz.map RecentActivity.quiz,
        db.web_search.map RecentActivity.web_search] := by
  simp [getRecentActivities, mergeReads, tableRead, topK, List.flatten_cons, List.flatten_nil,
    List.append_nil]

/-- The union of the five tagged tables is the flatten of their list. -/
theorem allActivitiesOf_eq_flatten (db : DB) :
    allActivitiesOf db
      = [db.document_analysis.map RecentActivity.document_analysis,
          db.generated_images.map RecentActivity.generated_image,
          db.generated_videos.map RecentActivity.generated_video,
          db.quiz.map RecentActivity.quiz,
          db.web_search.map RecentActivity.web_search].flatten := by
  simp [allActivitiesOf, List.flatten_cons, List.flatten_nil, List.append_nil]

/-- C9: getRecentActivities returns min limit of the union size records, so
at most limit of them, drawn from the union of the five result tables,
ordered by created_at descending, and no record of the union left out is
newer than any record returned: the result is the limit globally newest
records of the union up to arbitrary tie-breaking among equal timestamps. -/
theorem getRecentActivities_top_merge (db : DB) (limit : Nat) :
    (getRecentActivities db limit).length = min limit (allActivitiesOf db).length ∧
    List.Sorted actGe (getRecentActivities db limit) ∧
    List.Subperm (getRecentActivities db limit) (allActivitiesOf db) ∧
    (∀ x ∈ getRecentActivities db limit,
      ∀ y ∈ ((allActivitiesOf db : Multiset RecentActivity)
          - (getRecentActivities db limit : Multiset RecentActivity)),
        y.created_at ≤ x.created_at) := by
  rw [getRecentActivities_eq_mergeReads db limit, allActivitiesOf_eq_flatten db]
  obtain ⟨h1, h2, h3, h4⟩ := mergeReads_spec actGe limit
    [db.document_analysis.map RecentActivity.document_analysis,
      db.generated_images.map RecentActivity.generated_image,
      db.generated_videos.map RecentActivity.generated_video,
      db.quiz.map RecentActivity.quiz,
      db.web_search.map RecentActivity.web_search]
  exact ⟨h1, h2, h3, fun x hx y hy => h4 x hx y hy⟩

/-- Witness for C9 at a concrete input: a store with one video created at 5
and two quizzes created at 9 and 1, read with limit 2; the returned video is
at least as new as the omitted quiz. -/
theorem getRecentActivities_top_merge_witness :
    RecentActivity.generated_video
        ⟨1, "cat", none, none, VideoStatus.pending, some "q", 5, none⟩
      ∈ getRecentActivities
          { emptyDB with
            generated_videos := [⟨1, "cat", none, none, VideoStatus.pending, some "q", 5, none⟩]
            quiz := [⟨1, "src", "data", 9⟩, ⟨2, "src2", "data2", 1⟩] } 2 ∧
    RecentActivity.quiz ⟨2, "src2", "data2", 1⟩
      ∈ ((allActivitiesOf
            { emptyDB with
              generated_videos := [⟨1, "cat", none, none, VideoStatus.pending, some "q", 5, none⟩]
              quiz := [⟨1, "src", "data", 9⟩, ⟨2, "src2", "data2", 1⟩] } : Multiset RecentActivity)
          - (getRecentActivities
              { emptyDB with
                generated_videos := [⟨1, "cat", none, none, VideoStatus.pending, some "q", 5, none⟩]
                quiz := [⟨1, "src", "data", 9⟩, ⟨2, "src2", "data2", 1⟩] } 2 : Multiset RecentActivity)) ∧
    (RecentActivity.quiz ⟨2, "src2", "data2", 1⟩).created_at
      ≤ (RecentActivity.generated_video
          ⟨1, "cat", none, none, VideoStatus.pending, some "q", 5, none⟩).created_at :=
  ⟨by decide, by decide,
    (getRecentActivities_top_merge
      { emptyDB with
        generated_videos := [⟨1, "cat", none, none, VideoStatus.pending, some "q", 5, none⟩]
        quiz := [⟨1, "src", "data", 9⟩, ⟨2, "src2", "data2", 1⟩] } 2).2.2.2
      (RecentActivity.generated_video
        ⟨1, "cat", none, none, VideoStatus.pending, some "q", 5, none⟩)
      (by decide)
      (RecentActivity.quiz ⟨2, "src2", "data2", 1⟩)
      (by decide)⟩

end OkaiGpt
